import Mathlib

/-!
# Verification of the Solidity type interner (`TypeProvider`) and `GlobalContext`

Shallow embedding of:
* `src/libsolidity/ast/TypeProvider.h` — the type interner: static atoms,
  inline factory bodies (`integerType`, `fixedBytesType`, `byteType`,
  `withLocationIfReference`, the atom accessors), the mutable caches, and the
  declared-but-out-of-tree operations (`reset`, string-keyed `functionType`,
  `fromElementaryTypeName`, `withLocation`), the latter modelled from the spec.
* `src/libsolidity/analysis/GlobalContext.cpp` and the second copy of the same
  file at `src/unnamed/part_000` — the built-in ("magic") declarations and the
  memoized `this` / `super` declarations.

Handles are modelled as an identity (`Nat`, standing for the C++ pointer) paired
with the semantic type value; pointer (handle) equality is identity equality.
Atoms occupy the fixed identities `0 .. 108` (static storage); cache-allocated
values take identities from a monotone counter starting at `109` (the arena:
a freshly allocated value never reuses a live or previously observed identity).
-/

namespace Solidity

/-- `DataLocation` of reference types (Types.h). -/
inductive DataLocation where
  | Storage
  | CallData
  | Memory
deriving DecidableEq, Repr

/-- `MagicType::Kind` without `MetaType` (the four namespace atoms,
cf. `m_magicTypes` "MagicType's except MetaType"). -/
inductive MagicKind where
  | Block
  | Message
  | Transaction
  | ABI
deriving DecidableEq, Repr

/-- `StateMutability` (Types.h). -/
inductive StateMutability where
  | Pure
  | View
  | NonPayable
  | Payable
deriving DecidableEq, Repr

/-- `IntegerType::Modifier`. -/
inductive IntModifier where
  | Unsigned
  | Signed
deriving DecidableEq, Repr

/-- `FunctionType::Kind` (closed set, from the spec's data model table). -/
inductive FunctionKind where
  | Internal
  | External
  | CallCode
  | DelegateCall
  | BareCall
  | Creation
  | Send
  | Transfer
  | KECCAK256
  | ECRecover
  | SHA256
  | RIPEMD160
  | Log0
  | Log1
  | Log2
  | Log3
  | Log4
  | GasLeft
  | BlockHash
  | AddMod
  | MulMod
  | Assert
  | Require
  | Revert
  | Selfdestruct
  | MetaType
  | Event
deriving DecidableEq, Repr

/-- Semantic type values / interning descriptors: the closed, tagged
enumeration of type kinds from the data model. Component types are referenced
by handle identity (`Nat`), exactly as the C++ canonicalization keys do
("Array: (location, element-handle, length-tag, is-string, is-pointer)",
"Tuple: ordered sequence of member handles", and so on); nominal kinds carry
the declaration identity as a `Nat` ("keyed on declaration identity, not on
structural unrolling"). -/
inductive Ty where
  | bool
  | address (payable : Bool)
  | integer (bits : Nat) (modifier : IntModifier)
  | fixedBytes (m : Nat)
  | fixedPoint (m n : Nat) (modifier : IntModifier)
  | array (loc : DataLocation) (elem : Nat) (length : Option Nat)
      (isString : Bool) (isPointer : Bool)
  | mapping (key value : Nat)
  | tuple (members : List Nat)
  | fn (params rets : List Nat) (paramNames retNames : List String)
      (kind : FunctionKind) (mutability : StateMutability)
      (gasSet valueSet bound arbitraryParams : Bool) (decl : Option Nat)
  | stringLiteral (s : String)
  | rationalNumber (num : Int) (den : Nat) (compatibleBytes : Option Nat)
  | contract (decl : Nat) (isSuper : Bool)
  | structTy (decl : Nat) (loc : DataLocation)
  | enum (decl : Nat)
  | module (sourceUnit : Nat)
  | typeType (of : Nat)
  | modifierTy (decl : Nat)
  | magic (kind : MagicKind)
  | metaType (of : Nat)
  | inaccessibleDynamic
deriving DecidableEq, Repr

/-! ## Static atoms

`TypeProvider.h:199-211` declares the immortal singletons: `m_boolType`,
`m_inaccessibleDynamicType`, `m_bytesType`, `m_bytesMemoryType`,
`m_stringType`, `m_stringMemoryType`, `m_emptyTupleType`,
`m_payableAddressType`, `m_addressType`, `m_intM[32]`, `m_uintM[32]`,
`m_bytesM[32]`, `m_magicTypes[4]`. We assign them the fixed identities
`0 .. 108`; cache-allocated identities start at `109`. -/

/-- Identity of the static `m_intM[bits/8 - 1]` atom (signed integers). -/
def intId (bits : Nat) : Nat := 8 + bits / 8

/-- Identity of the static `m_uintM[bits/8 - 1]` atom (unsigned integers). -/
def uintId (bits : Nat) : Nat := 40 + bits / 8

/-- Identity of the static `m_bytesM[m - 1]` atom. -/
def fixedBytesId (m : Nat) : Nat := 72 + m

/-- Identity of the static `m_magicTypes` atom for a given namespace kind. -/
def magicId : MagicKind → Nat
  | .Block => 105
  | .Message => 106
  | .Transaction => 107
  | .ABI => 108

/-- Modelled from the spec: the initializer of the static `m_bytesType` lives
in `TypeProvider.cpp`, which is not under `src/`; per §4.1 the four canonical
`bytes`/`string` singletons are "dynamic arrays of bytes with the four
combinations of string-flavor × storage-vs-memory". Storage values are owning
(non-pointer); memory references are pointers. -/
def bytesStorageTy : Ty := .array .Storage (fixedBytesId 1) none false false

/-- Modelled from the spec: the `m_bytesMemoryType` initializer (see
`bytesStorageTy`). -/
def bytesMemoryTy : Ty := .array .Memory (fixedBytesId 1) none false true

/-- Modelled from the spec: the `m_stringType` initializer (see
`bytesStorageTy`). -/
def stringStorageTy : Ty := .array .Storage (fixedBytesId 1) none true false

/-- Modelled from the spec: the `m_stringMemoryType` initializer (see
`bytesStorageTy`). -/
def stringMemoryTy : Ty := .array .Memory (fixedBytesId 1) none true true

/-- Maps a descriptor to the identity of its pre-populated static atom, or
`none` when the descriptor denotes a cached (mutable-lifetime) type. -/
def atomId? (t : Ty) : Option Nat :=
  if t = bytesStorageTy then some 2
  else if t = bytesMemoryTy then some 3
  else if t = stringStorageTy then some 4
  else if t = stringMemoryTy then some 5
  else
    match t with
    | .bool => some 0
    | .inaccessibleDynamic => some 1
    | .tuple [] => some 6
    | .address payable => some (if payable then 7 else 8)
    | .integer bits m =>
        if bits % 8 = 0 ∧ 8 ≤ bits ∧ bits ≤ 256 then
          some (if m = .Signed then intId bits else uintId bits)
        else none
    | .fixedBytes m => if 1 ≤ m ∧ m ≤ 32 then some (fixedBytesId m) else none
    | .magic k => some (magicId k)
    | _ => none

/-- A borrowed handle (`Type const*`): the pointer identity together with the
immutable value it points at. Handle equality at the same identity is the
C++ pointer equality. -/
structure TypeHandle where
  id : Nat
  ty : Ty
deriving DecidableEq, Repr

/-! ## Interner state and the core `intern` operation -/

/-- The mutable caches of the `TypeProvider`
(`m_ufixedMxN`/`m_fixedMxN`/`m_stringLiteralTypes`/`m_generalTypes`,
TypeProvider.h:213-216), flattened into one content-keyed association list
from descriptor to allocated identity, plus the arena's monotone allocation
counter (a fresh allocation never reuses an observed identity). -/
structure InternerState where
  cache : List (Ty × Nat)
  nextId : Nat
deriving DecidableEq, Repr

/-- State of a freshly constructed `TypeProvider`: empty caches; identities
`0 .. 108` are taken by the static atoms. -/
def initialState : InternerState := ⟨[], 109⟩

/-- Content-keyed cache lookup. -/
def findId : List (Ty × Nat) → Ty → Option Nat
  | [], _ => none
  | (u, i) :: rest, t => if u = t then some i else findId rest t

/-- The sole canonicalizing operation: returns the static atom for an atomic
descriptor, the cached handle for a known descriptor, and otherwise allocates
a fresh value and caches it. Every cached factory method funnels through
this. -/
def intern (t : Ty) (s : InternerState) : InternerState × TypeHandle :=
  match atomId? t with
  | some i => (s, ⟨i, t⟩)
  | none =>
    match findId s.cache t with
    | some i => (s, ⟨i, t⟩)
    | none => (⟨(t, s.nextId) :: s.cache, s.nextId + 1⟩, ⟨s.nextId, t⟩)

/-- Interns a list of descriptors left to right, threading the state. -/
def internMany (ts : List Ty) (s : InternerState) : InternerState × List TypeHandle :=
  match ts with
  | [] => (s, [])
  | t :: rest =>
      let r₁ := intern t s
      let r₂ := internMany rest r₁.1
      (r₂.1, r₁.2 :: r₂.2)

/-- Modelled from the spec: the body of `TypeProvider::reset`
(declared TypeProvider.h:57) is in `TypeProvider.cpp`, which is not under
`src/`. Per §4.1/§4.2 of the spec it drops "every non-atom cache and stored
value; atoms survive". The allocation counter is monotone: a later allocation
is observed at a different identity than any pre-reset handle. -/
def reset (s : InternerState) : InternerState := ⟨[], s.nextId⟩

/-- Well-formedness of an interner state: cached identities are allocated
(`≥ 109`, past the static atoms) and below the allocation counter. -/
def WF (s : InternerState) : Prop :=
  (∀ p ∈ s.cache, 109 ≤ p.2 ∧ p.2 < s.nextId) ∧ 109 ≤ s.nextId

instance : DecidablePred WF := fun s => by
  unfold WF; infer_instance

/-! ## Errors -/

/-- The spec's structured `InvalidTypeRequest` taxonomy (§7). -/
inductive StructuredError where
  | UnknownElementaryType (name : String)
  | BadIntegerWidth (bits : Nat)
  | BadFixedBytesLength (n : Nat)
  | BadFixedPointShape (m n : Nat)
  | BadMappingKey
  | InvalidLocationSuffix (suffix : String)
deriving DecidableEq, Repr

/-- Observable failure of a factory call: `solAssert` violation (throws
`InternalCompilerError`), a bounds failure from `std::array::at`
(`std::out_of_range`), or a structured error of the spec's taxonomy. -/
inductive ProviderError where
  | assertionFailure
  | outOfRange
  | structured (e : StructuredError)
deriving DecidableEq, Repr

/-- Observations of factory results are decidable. -/
instance {ε α : Type _} [DecidableEq ε] [DecidableEq α] : DecidableEq (Except ε α) := fun a b =>
  match a, b with
  | .error e, .error f => decidable_of_iff (e = f) (by simp)
  | .ok x, .ok y => decidable_of_iff (x = y) (by simp)
  | .error _, .ok _ => .isFalse (by simp)
  | .ok _, .error _ => .isFalse (by simp)

/-! ## Factory methods with bodies in `TypeProvider.h` -/

/-- Wrap-around modulus of the C++ `unsigned` parameters. -/
def UWRAP : Nat := 2 ^ 32

/-- Embeds `TypeProvider::integerType` (TypeProvider.h:99-106):
`solAssert((_bits % 8) == 0, "")`, then `m_uintM.at(_bits / 8 - 1)` resp.
`m_intM.at(...)`; the index is computed in C++ `unsigned` arithmetic
(wrapping at `2^32`) and `at` throws `std::out_of_range` unless it is below
32. On success the returned handle is the static integer atom. -/
def integerType (bits : Nat) (modifier : IntModifier) : Except ProviderError TypeHandle :=
  let b := bits % UWRAP
  if b % 8 ≠ 0 then .error .assertionFailure
  else
    let idx := (b / 8 + (UWRAP - 1)) % UWRAP
    if idx < 32 then
      .ok ⟨(if modifier = .Signed then intId else uintId) (8 * (idx + 1)),
           .integer (8 * (idx + 1)) modifier⟩
    else .error .outOfRange

/-- Embeds `TypeProvider::fixedBytesType` (TypeProvider.h:80):
`&m_bytesM.at(m - 1)` with the index in C++ `unsigned` arithmetic; `at`
throws `std::out_of_range` unless the index is below 32. -/
def fixedBytesType (m : Nat) : Except ProviderError TypeHandle :=
  let idx := (m % UWRAP + (UWRAP - 1)) % UWRAP
  if idx < 32 then .ok ⟨fixedBytesId (idx + 1), .fixedBytes (idx + 1)⟩
  else .error .outOfRange

/-- Embeds `TypeProvider::byteType` (TypeProvider.h:79): `fixedBytesType(1)`. -/
def byteType : Except ProviderError TypeHandle := fixedBytesType 1

/-- Embeds `TypeProvider::boolType` (TypeProvider.h:77). -/
def boolType : TypeHandle := ⟨0, .bool⟩

/-- Embeds `TypeProvider::inaccessibleDynamicType` (TypeProvider.h:175). -/
def inaccessibleDynamicType : TypeHandle := ⟨1, .inaccessibleDynamic⟩

/-- Embeds `TypeProvider::bytesType` (TypeProvider.h:82). -/
def bytesType : TypeHandle := ⟨2, bytesStorageTy⟩

/-- Embeds `TypeProvider::bytesMemoryType` (TypeProvider.h:83). -/
def bytesMemoryType : TypeHandle := ⟨3, bytesMemoryTy⟩

/-- Embeds `TypeProvider::stringType` (TypeProvider.h:84). -/
def stringType : TypeHandle := ⟨4, stringStorageTy⟩

/-- Embeds `TypeProvider::stringMemoryType` (TypeProvider.h:85). -/
def stringMemoryType : TypeHandle := ⟨5, stringMemoryTy⟩

/-- Embeds `TypeProvider::emptyTupleType` (TypeProvider.h:114). -/
def emptyTupleType : TypeHandle := ⟨6, .tuple []⟩

/-- Embeds `TypeProvider::errorType` (TypeProvider.h:117): alias of
`emptyTupleType`. -/
def errorType : TypeHandle := emptyTupleType

/-- Embeds `TypeProvider::payableAddressType` (TypeProvider.h:96). -/
def payableAddressType : TypeHandle := ⟨7, .address true⟩

/-- Embeds `TypeProvider::addressType` (TypeProvider.h:97). -/
def addressType : TypeHandle := ⟨8, .address false⟩

/-- Embeds `TypeProvider::magicType` (TypeProvider.h:189): the four namespace
atoms (`m_magicTypes`, "MagicType's except MetaType"). -/
def magicType (k : MagicKind) : TypeHandle := ⟨magicId k, .magic k⟩

/-! ## `withLocation` and `withLocationIfReference` -/

/-- The `dynamic_cast<ReferenceType const*>` test of TypeProvider.h:126: the
reference kinds are array, struct and string literal (§4.1: "interns a
re-located variant of an array/struct/string literal"). -/
def isReferenceTy : Ty → Bool
  | .array .. => true
  | .structTy .. => true
  | .stringLiteral _ => true
  | _ => false

/-- Modelled from the spec: the body of `TypeProvider::withLocation`
(declared TypeProvider.h:119) is in `TypeProvider.cpp`, which is not under
`src/`. Per §4.1 it re-locates an array/struct/string-literal descriptor;
the pointer flag distinguishes array forms ("Pointer vs. non-pointer array
forms are distinct handles"). -/
def relocate (t : Ty) (loc : DataLocation) (isPointer : Bool) : Ty :=
  match t with
  | .array _ elem len isStr _ => .array loc elem len isStr isPointer
  | .structTy decl _ => .structTy decl loc
  | t => t

/-- Modelled from the spec: `TypeProvider::withLocation(refType, location,
isPointer)` "interns a re-located variant" (§4.1); body in the out-of-tree
`TypeProvider.cpp`. -/
def withLocation (t : TypeHandle) (loc : DataLocation) (isPointer : Bool)
    (s : InternerState) : InternerState × TypeHandle :=
  intern (relocate t.ty loc isPointer) s

/-- Embeds `TypeProvider::withLocationIfReference` (TypeProvider.h:124-130),
generalized over the pointer flag handed to `withLocation` (the source
instantiates it with `false`; the claim quantifies over it): if the input is
a reference type, re-intern it at the new location, otherwise return the
input handle unchanged. -/
def withLocationIfReferenceP (loc : DataLocation) (isPointer : Bool)
    (t : TypeHandle) (s : InternerState) : InternerState × TypeHandle :=
  if isReferenceTy t.ty then withLocation t loc isPointer s else (s, t)

/-- Embeds `TypeProvider::withLocationIfReference` exactly as written
(TypeProvider.h:124-130): the pointer flag passed on is `false`. -/
def withLocationIfReference (loc : DataLocation) (t : TypeHandle)
    (s : InternerState) : InternerState × TypeHandle :=
  withLocationIfReferenceP loc false t s

/-! ## Elementary type names

The body of both `fromElementaryTypeName` overloads is in `TypeProvider.cpp`,
which is not under `src/`; the string overload's contract is documented at
TypeProvider.h:72-73 ("optional data location suffix \" storage\",
\" calldata\" or \" memory\" ... defaults to \" storage\"") and the grammar is
the spec's §6. The parsing definitions below are modelled from that grammar. -/

/-- Modelled from the spec: parse the optional data-location suffix
(TypeProvider.h:72-73); default is storage. -/
def locSplit (cs : List Char) : List Char × DataLocation :=
  if (" storage".data).isSuffixOf cs then (cs.take (cs.length - 8), .Storage)
  else if (" calldata".data).isSuffixOf cs then (cs.take (cs.length - 9), .CallData)
  else if (" memory".data).isSuffixOf cs then (cs.take (cs.length - 7), .Memory)
  else (cs, .Storage)

/-- Value of a non-empty all-digit character sequence. -/
def digitsVal? (cs : List Char) : Option Nat :=
  if cs ≠ [] ∧ cs.all Char.isDigit then
    some (cs.foldl (fun n c => 10 * n + (c.toNat - 48)) 0)
  else none

/-- Modelled from the spec: the dynamic `bytes`/`string` type at a data
location (§4.1 `arrayType(location, isString)`); at storage and memory these
are the canonical singletons. -/
def dynamicBytesTy (loc : DataLocation) (isString : Bool) : Ty :=
  match loc, isString with
  | .Storage, false => bytesStorageTy
  | .Storage, true => stringStorageTy
  | .Memory, false => bytesMemoryTy
  | .Memory, true => stringMemoryTy
  | .CallData, b => .array .CallData (fixedBytesId 1) none b true

/-- Modelled from the spec: `fixed`/`ufixed` digits `MxN` (§6 grammar with
§4.1's width window: `m + n ∈ 8·{1..32}`, `1 ≤ n ≤ 80`). -/
def parseFixedDigits (cs : List Char) (modifier : IntModifier) : Except ProviderError Ty :=
  match cs.span (· ≠ 'x') with
  | (ms, 'x' :: ns) =>
      match digitsVal? ms, digitsVal? ns with
      | some m, some n =>
          if (m + n) % 8 = 0 ∧ 8 ≤ m + n ∧ m + n ≤ 256 ∧ 1 ≤ n ∧ n ≤ 80 then
            .ok (.fixedPoint m n modifier)
          else .error (.structured (.BadFixedPointShape m n))
      | _, _ => .error (.structured (.UnknownElementaryType (String.mk cs)))
  | _ => .error (.structured (.UnknownElementaryType (String.mk cs)))

/-- Modelled from the spec: descriptor of an elementary type name without its
location suffix, per the §6 grammar; missing `int`/`uint` digits default to
256 and missing `fixed` digits to 128×18. -/
def elementaryDescriptor (base : List Char) (loc : DataLocation) : Except ProviderError Ty :=
  if base = "bool".data then .ok .bool
  else if base = "address".data then .ok (.address false)
  else if base = "address payable".data then .ok (.address true)
  else if base = "int".data then .ok (.integer 256 .Signed)
  else if base = "uint".data then .ok (.integer 256 .Unsigned)
  else if base = "fixed".data then .ok (.fixedPoint 128 18 .Signed)
  else if base = "ufixed".data then .ok (.fixedPoint 128 18 .Unsigned)
  else if base = "bytes".data then .ok (dynamicBytesTy loc false)
  else if base = "string".data then .ok (dynamicBytesTy loc true)
  else if ("uint".data).isPrefixOf base then
    match digitsVal? (base.drop 4) with
    | some n =>
        if n % 8 = 0 ∧ 8 ≤ n ∧ n ≤ 256 then .ok (.integer n .Unsigned)
        else .error (.structured (.BadIntegerWidth n))
    | none => .error (.structured (.UnknownElementaryType (String.mk base)))
  else if ("int".data).isPrefixOf base then
    match digitsVal? (base.drop 3) with
    | some n =>
        if n % 8 = 0 ∧ 8 ≤ n ∧ n ≤ 256 then .ok (.integer n .Signed)
        else .error (.structured (.BadIntegerWidth n))
    | none => .error (.structured (.UnknownElementaryType (String.mk base)))
  else if ("bytes".data).isPrefixOf base then
    match digitsVal? (base.drop 5) with
    | some n =>
        if 1 ≤ n ∧ n ≤ 32 then .ok (.fixedBytes n)
        else .error (.structured (.BadFixedBytesLength n))
    | none => .error (.structured (.UnknownElementaryType (String.mk base)))
  else if ("ufixed".data).isPrefixOf base then parseFixedDigits (base.drop 6) .Unsigned
  else if ("fixed".data).isPrefixOf base then parseFixedDigits (base.drop 5) .Signed
  else .error (.structured (.UnknownElementaryType (String.mk base)))

/-- Modelled from the spec: the string overload of
`TypeProvider::fromElementaryTypeName` (TypeProvider.h:74); parses the
optional location suffix, resolves the elementary name per the §6 grammar,
and interns the result. Fails without touching state ("factories never
partially succeed"). -/
def fromElementaryTypeName (name : String) (s : InternerState) :
    Except ProviderError (InternerState × TypeHandle) :=
  match elementaryDescriptor (locSplit name.data).1 (locSplit name.data).2 with
  | .error e => .error e
  | .ok d => .ok (intern d s)

/-! ## The `strings` overload of `functionType` -/

/-- Resolves a list of elementary type names to descriptors. -/
def elementaryDescriptors (names : List String) : Except ProviderError (List Ty) :=
  match names with
  | [] => .ok []
  | n :: rest =>
    match elementaryDescriptor (locSplit n.data).1 (locSplit n.data).2 with
    | .error e => .error e
    | .ok d =>
      match elementaryDescriptors rest with
      | .error e => .error e
      | .ok ds => .ok (d :: ds)

/-- Modelled from the spec: the `strings` overload of
`TypeProvider::functionType` (TypeProvider.h:145-151), whose body is in the
out-of-tree `TypeProvider.cpp`: resolves the parameter and return elementary
type names, then interns the function descriptor; parameter/return names are
empty, and the gas-set, value-set and bound flags are `false` with no owning
declaration. Name resolution happens before any interning, so a failing call
leaves the state untouched. -/
def functionTypeS (parameterTypes returnParameterTypes : List String)
    (kind : FunctionKind) (arbitraryParameters : Bool)
    (stateMutability : StateMutability) (s : InternerState) :
    Except ProviderError (InternerState × TypeHandle) :=
  match elementaryDescriptors parameterTypes with
  | .error e => .error e
  | .ok pds =>
    match elementaryDescriptors returnParameterTypes with
    | .error e => .error e
    | .ok rds =>
      .ok (intern (.fn ((internMany pds s).2.map TypeHandle.id)
        ((internMany rds (internMany pds s).1).2.map TypeHandle.id) [] []
        kind stateMutability false false false arbitraryParameters none)
        (internMany rds (internMany pds s).1).1)

/-! ## GlobalContext (`src/libsolidity/analysis/GlobalContext.cpp`) -/

/-- A `MagicVariableDeclaration`: the allocation identity of the
`make_shared` target (pointer equality of declarations is identity
equality), the name, and the borrowed type handle. -/
structure MagicVariableDeclaration where
  id : Nat
  name : String
  ty : TypeHandle
deriving DecidableEq, Repr

/-- Embeds `constructMagicVariables` (GlobalContext.cpp:38-79): the 27 rows in
their construction order, each `magicVariableDecl(name, type)` allocating a
fresh declaration (identities `0 .. 26`), with the type from the corresponding
`TypeProvider` call. -/
def constructMagicVariables (s : InternerState) :
    Except ProviderError (InternerState × List MagicVariableDeclaration) := do
  let abiT := magicType .ABI
  let (s, addmodT) ← functionTypeS ["uint256", "uint256", "uint256"] ["uint256"] .AddMod false .Pure s
  let (s, assertT) ← functionTypeS ["bool"] [] .Assert false .Pure s
  let blockT := magicType .Block
  let (s, blockhashT) ← functionTypeS ["uint256"] ["bytes32"] .BlockHash false .View s
  let (s, ecrecoverT) ← functionTypeS ["bytes32", "uint8", "bytes32", "bytes32"] ["address"] .ECRecover false .Pure s
  let (s, gasleftT) ← functionTypeS [] ["uint256"] .GasLeft false .View s
  let (s, keccak256T) ← functionTypeS ["bytes memory"] ["bytes32"] .KECCAK256 false .Pure s
  let (s, log0T) ← functionTypeS ["bytes32"] [] .Log0 false .NonPayable s
  let (s, log1T) ← functionTypeS ["bytes32", "bytes32"] [] .Log1 false .NonPayable s
  let (s, log2T) ← functionTypeS ["bytes32", "bytes32", "bytes32"] [] .Log2 false .NonPayable s
  let (s, log3T) ← functionTypeS ["bytes32", "bytes32", "bytes32", "bytes32"] [] .Log3 false .NonPayable s
  let (s, log4T) ← functionTypeS ["bytes32", "bytes32", "bytes32", "bytes32", "bytes32"] [] .Log4 false .NonPayable s
  let msgT := magicType .Message
  let (s, mulmodT) ← functionTypeS ["uint256", "uint256", "uint256"] ["uint256"] .MulMod false .Pure s
  let nowT ← integerType 256 .Unsigned
  let (s, require1T) ← functionTypeS ["bool"] [] .Require false .Pure s
  let (s, require2T) ← functionTypeS ["bool", "string memory"] [] .Require false .Pure s
  let (s, revert1T) ← functionTypeS [] [] .Revert false .Pure s
  let (s, revert2T) ← functionTypeS ["string memory"] [] .Revert false .Pure s
  let (s, ripemd160T) ← functionTypeS ["bytes memory"] ["bytes20"] .RIPEMD160 false .Pure s
  let (s, selfdestructT) ← functionTypeS ["address payable"] [] .Selfdestruct false .NonPayable s
  let (s, sha256T) ← functionTypeS ["bytes memory"] ["bytes32"] .SHA256 false .Pure s
  let (s, sha3T) ← functionTypeS ["bytes memory"] ["bytes32"] .KECCAK256 false .Pure s
  let (s, suicideT) ← functionTypeS ["address payable"] [] .Selfdestruct false .NonPayable s
  let txT := magicType .Transaction
  let (s, typeT) ← functionTypeS ["address"] [] .MetaType false .Pure s
  pure (s,
    [⟨0, "abi", abiT⟩, ⟨1, "addmod", addmodT⟩, ⟨2, "assert", assertT⟩,
     ⟨3, "block", blockT⟩, ⟨4, "blockhash", blockhashT⟩,
     ⟨5, "ecrecover", ecrecoverT⟩, ⟨6, "gasleft", gasleftT⟩,
     ⟨7, "keccak256", keccak256T⟩, ⟨8, "log0", log0T⟩, ⟨9, "log1", log1T⟩,
     ⟨10, "log2", log2T⟩, ⟨11, "log3", log3T⟩, ⟨12, "log4", log4T⟩,
     ⟨13, "msg", msgT⟩, ⟨14, "mulmod", mulmodT⟩, ⟨15, "now", nowT⟩,
     ⟨16, "require", require1T⟩, ⟨17, "require", require2T⟩,
     ⟨18, "revert", revert1T⟩, ⟨19, "revert", revert2T⟩,
     ⟨20, "ripemd160", ripemd160T⟩, ⟨21, "selfdestruct", selfdestructT⟩,
     ⟨22, "sha256", sha256T⟩, ⟨23, "sha3", sha3T⟩, ⟨24, "suicide", suicideT⟩,
     ⟨25, "tx", txT⟩, ⟨26, "type", typeT⟩])

/-- The `GlobalContext` object together with the global `TypeProvider`
instance it works against: `m_magicVariables`, `m_currentContract` (a nullable
pointer), and the memo maps `m_thisPointer` / `m_superPointer` keyed by the
current-contract pointer; `declNext` is the allocation counter for
`make_shared<MagicVariableDeclaration>`. -/
structure GlobalContext where
  interner : InternerState
  magicVariables : List MagicVariableDeclaration
  declNext : Nat
  currentContract : Option Nat
  thisPointer : List (Option Nat × MagicVariableDeclaration)
  superPointer : List (Option Nat × MagicVariableDeclaration)
deriving DecidableEq, Repr

/-- Memo-map lookup (`std::map` access without insertion of the default). -/
def lookupMemo (m : List (Option Nat × MagicVariableDeclaration))
    (k : Option Nat) : Option MagicVariableDeclaration :=
  match m with
  | [] => none
  | (k', d) :: rest => if k' = k then some d else lookupMemo rest k

/-- Embeds `GlobalContext::GlobalContext()` (GlobalContext.cpp:81-83):
runs `constructMagicVariables` against the provider state. -/
def mkGlobalContext (s : InternerState) : Except ProviderError GlobalContext :=
  match constructMagicVariables s with
  | .error e => .error e
  | .ok r => .ok ⟨r.1, r.2, r.2.length, none, [], []⟩

/-- Embeds `GlobalContext::setCurrentContract` (GlobalContext.cpp:85-88). -/
def setCurrentContract (c : Nat) (g : GlobalContext) : GlobalContext :=
  { g with currentContract := some c }

/-- Embeds `GlobalContext::declarations` (GlobalContext.cpp:90-97): the raw
declaration pointers of `m_magicVariables`, in order. -/
def declarations (g : GlobalContext) : List MagicVariableDeclaration :=
  g.magicVariables

/-- Embeds `GlobalContext::currentThis` (GlobalContext.cpp:99-105): if the
memo has no entry for the current contract pointer, allocate a declaration
named `"this"` typed `TypeProvider::contractType(*m_currentContract)` and
memoize it; return the memoized pointer. Dereferencing a null
`m_currentContract` is undefined behavior, modelled as `none`. -/
def currentThis (g : GlobalContext) :
    Option (GlobalContext × MagicVariableDeclaration) :=
  match lookupMemo g.thisPointer g.currentContract with
  | some d => some (g, d)
  | none =>
    match g.currentContract with
    | none => none
    | some c =>
        let r := intern (.contract c false) g.interner
        let d : MagicVariableDeclaration := ⟨g.declNext, "this", r.2⟩
        some (⟨r.1, g.magicVariables, g.declNext + 1, g.currentContract,
               (g.currentContract, d) :: g.thisPointer, g.superPointer⟩, d)

/-- Embeds `GlobalContext::currentSuper` (GlobalContext.cpp:107-112): as
`currentThis`, with name `"super"` and
`TypeProvider::contractType(*m_currentContract, true)`. -/
def currentSuper (g : GlobalContext) :
    Option (GlobalContext × MagicVariableDeclaration) :=
  match lookupMemo g.superPointer g.currentContract with
  | some d => some (g, d)
  | none =>
    match g.currentContract with
    | none => none
    | some c =>
        let r := intern (.contract c true) g.interner
        let d : MagicVariableDeclaration := ⟨g.declNext, "super", r.2⟩
        some (⟨r.1, g.magicVariables, g.declNext + 1, g.currentContract,
               g.thisPointer, (g.currentContract, d) :: g.superPointer⟩, d)

/-- Calling `TypeProvider::get().reset()` while a `GlobalContext` is alive:
only the provider state changes; the context's declaration list and memo maps
are untouched (nothing in `GlobalContext.cpp` hooks into `reset`). -/
def resetProvider (g : GlobalContext) : GlobalContext :=
  { g with interner := reset g.interner }

/-! ## The second GlobalContext implementation (`src/unnamed/part_000`)

`part_000` is the same translation unit written against the
`TypeProvider::get()` instance surface (`typeProvider.functionType(...)`,
`TypeProvider::get().contractType(...)`) instead of the static-method surface.
Both surfaces address the one global provider state, so the embeddings share
the state type; the rows are transcribed independently below. -/

/-- Embeds `constructMagicVariables` of `src/unnamed/part_000` (lines 38-81):
the instance-call variant, rows in its construction order. -/
def constructMagicVariablesGet (s : InternerState) :
    Except ProviderError (InternerState × List MagicVariableDeclaration) := do
  let abiT := magicType .ABI
  let (s, addmodT) ← functionTypeS ["uint256", "uint256", "uint256"] ["uint256"] .AddMod false .Pure s
  let (s, assertT) ← functionTypeS ["bool"] [] .Assert false .Pure s
  let blockT := magicType .Block
  let (s, blockhashT) ← functionTypeS ["uint256"] ["bytes32"] .BlockHash false .View s
  let (s, ecrecoverT) ← functionTypeS ["bytes32", "uint8", "bytes32", "bytes32"] ["address"] .ECRecover false .Pure s
  let (s, gasleftT) ← functionTypeS [] ["uint256"] .GasLeft false .View s
  let (s, keccak256T) ← functionTypeS ["bytes memory"] ["bytes32"] .KECCAK256 false .Pure s
  let (s, log0T) ← functionTypeS ["bytes32"] [] .Log0 false .NonPayable s
  let (s, log1T) ← functionTypeS ["bytes32", "bytes32"] [] .Log1 false .NonPayable s
  let (s, log2T) ← functionTypeS ["bytes32", "bytes32", "bytes32"] [] .Log2 false .NonPayable s
  let (s, log3T) ← functionTypeS ["bytes32", "bytes32", "bytes32", "bytes32"] [] .Log3 false .NonPayable s
  let (s, log4T) ← functionTypeS ["bytes32", "bytes32", "bytes32", "bytes32", "bytes32"] [] .Log4 false .NonPayable s
  let msgT := magicType .Message
  let (s, mulmodT) ← functionTypeS ["uint256", "uint256", "uint256"] ["uint256"] .MulMod false .Pure s
  let nowT ← integerType 256 .Unsigned
  let (s, require1T) ← functionTypeS ["bool"] [] .Require false .Pure s
  let (s, require2T) ← functionTypeS ["bool", "string memory"] [] .Require false .Pure s
  let (s, revert1T) ← functionTypeS [] [] .Revert false .Pure s
  let (s, revert2T) ← functionTypeS ["string memory"] [] .Revert false .Pure s
  let (s, ripemd160T) ← functionTypeS ["bytes memory"] ["bytes20"] .RIPEMD160 false .Pure s
  let (s, selfdestructT) ← functionTypeS ["address payable"] [] .Selfdestruct false .NonPayable s
  let (s, sha256T) ← functionTypeS ["bytes memory"] ["bytes32"] .SHA256 false .Pure s
  let (s, sha3T) ← functionTypeS ["bytes memory"] ["bytes32"] .KECCAK256 false .Pure s
  let (s, suicideT) ← functionTypeS ["address payable"] [] .Selfdestruct false .NonPayable s
  let txT := magicType .Transaction
  let (s, typeT) ← functionTypeS ["address"] [] .MetaType false .Pure s
  pure (s,
    [⟨0, "abi", abiT⟩, ⟨1, "addmod", addmodT⟩, ⟨2, "assert", assertT⟩,
     ⟨3, "block", blockT⟩, ⟨4, "blockhash", blockhashT⟩,
     ⟨5, "ecrecover", ecrecoverT⟩, ⟨6, "gasleft", gasleftT⟩,
     ⟨7, "keccak256", keccak256T⟩, ⟨8, "log0", log0T⟩, ⟨9, "log1", log1T⟩,
     ⟨10, "log2", log2T⟩, ⟨11, "log3", log3T⟩, ⟨12, "log4", log4T⟩,
     ⟨13, "msg", msgT⟩, ⟨14, "mulmod", mulmodT⟩, ⟨15, "now", nowT⟩,
     ⟨16, "require", require1T⟩, ⟨17, "require", require2T⟩,
     ⟨18, "revert", revert1T⟩, ⟨19, "revert", revert2T⟩,
     ⟨20, "ripemd160", ripemd160T⟩, ⟨21, "selfdestruct", selfdestructT⟩,
     ⟨22, "sha256", sha256T⟩, ⟨23, "sha3", sha3T⟩, ⟨24, "suicide", suicideT⟩,
     ⟨25, "tx", txT⟩, ⟨26, "type", typeT⟩])

/-- Embeds `GlobalContext::setCurrentContract` of `part_000` (lines 87-90). -/
def setCurrentContractGet (c : Nat) (g : GlobalContext) : GlobalContext :=
  { g with currentContract := some c }

/-- Embeds `GlobalContext::declarations` of `part_000` (lines 92-99). -/
def declarationsGet (g : GlobalContext) : List MagicVariableDeclaration :=
  g.magicVariables

/-- Embeds `GlobalContext::currentThis` of `part_000` (lines 101-107), which
calls `TypeProvider::get().contractType(*m_currentContract)`. -/
def currentThisGet (g : GlobalContext) :
    Option (GlobalContext × MagicVariableDeclaration) :=
  match lookupMemo g.thisPointer g.currentContract with
  | some d => some (g, d)
  | none =>
    match g.currentContract with
    | none => none
    | some c =>
        let r := intern (.contract c false) g.interner
        let d : MagicVariableDeclaration := ⟨g.declNext, "this", r.2⟩
        some (⟨r.1, g.magicVariables, g.declNext + 1, g.currentContract,
               (g.currentContract, d) :: g.thisPointer, g.superPointer⟩, d)

/-- Embeds `GlobalContext::currentSuper` of `part_000` (lines 109-114), which
calls `TypeProvider::get().contractType(*m_currentContract, true)`. -/
def currentSuperGet (g : GlobalContext) :
    Option (GlobalContext × MagicVariableDeclaration) :=
  match lookupMemo g.superPointer g.currentContract with
  | some d => some (g, d)
  | none =>
    match g.currentContract with
    | none => none
    | some c =>
        let r := intern (.contract c true) g.interner
        let d : MagicVariableDeclaration := ⟨g.declNext, "super", r.2⟩
        some (⟨r.1, g.magicVariables, g.declNext + 1, g.currentContract,
               g.thisPointer, (g.currentContract, d) :: g.superPointer⟩, d)

/-! ## Concrete objects used by the claim statements -/

/-- The complete enumeration of the pre-populated static atoms
(TypeProvider.h:199-211): `bool`, the inaccessible-dynamic marker, the four
canonical `bytes`/`string` arrays, the empty tuple, the two address variants,
the 32 signed and 32 unsigned integers, the 32 fixed-bytes widths, and the
four magic namespaces. -/
def allAtoms : List TypeHandle :=
  [boolType, inaccessibleDynamicType, bytesType, bytesMemoryType, stringType,
   stringMemoryType, emptyTupleType, payableAddressType, addressType]
  ++ (List.range 32).map (fun i => ⟨intId (8 * (i + 1)), .integer (8 * (i + 1)) .Signed⟩)
  ++ (List.range 32).map (fun i => ⟨uintId (8 * (i + 1)), .integer (8 * (i + 1)) .Unsigned⟩)
  ++ (List.range 32).map (fun i => ⟨fixedBytesId (i + 1), .fixedBytes (i + 1)⟩)
  ++ [magicType .Block, magicType .Message, magicType .Transaction, magicType .ABI]

/-- The declaration list published by a `GlobalContext` built on a fresh
provider (`GlobalContext.declarations()` after construction). -/
def builtins? : Option (List MagicVariableDeclaration) :=
  (constructMagicVariables initialState).toOption.map Prod.snd

/-- Names of the published built-in declarations, in list order. -/
def builtinNames? : Option (List String) :=
  builtins?.map (List.map MagicVariableDeclaration.name)

/-- Row order of the spec's §4.2 built-ins table, as enumerated by the
claim. -/
def tableOrderNames : List String :=
  ["abi", "block", "msg", "tx", "now", "addmod", "mulmod", "assert",
   "require", "require", "revert", "revert", "blockhash", "gasleft",
   "keccak256", "sha3", "sha256", "ripemd160", "ecrecover", "selfdestruct",
   "suicide", "log0", "log1", "log2", "log3", "log4", "type"]

/-- The declaration list `constructMagicVariables` actually produces on a
fresh provider: alphabetical construction order, declaration identities
`0 .. 26`, and the §4.2 bound types (handle identities `72`/`92`/`104`/... are
the static atoms, `109` onward the interned function types; `sha3` shares
`keccak256`'s handle `114` and `suicide` shares `selfdestruct`'s `126`). -/
def expectedBuiltins : List MagicVariableDeclaration :=
  [⟨0, "abi", ⟨108, .magic .ABI⟩⟩,
   ⟨1, "addmod", ⟨109, .fn [72, 72, 72] [72] [] [] .AddMod .Pure false false false false none⟩⟩,
   ⟨2, "assert", ⟨110, .fn [0] [] [] [] .Assert .Pure false false false false none⟩⟩,
   ⟨3, "block", ⟨105, .magic .Block⟩⟩,
   ⟨4, "blockhash", ⟨111, .fn [72] [104] [] [] .BlockHash .View false false false false none⟩⟩,
   ⟨5, "ecrecover", ⟨112, .fn [104, 41, 104, 104] [8] [] [] .ECRecover .Pure false false false false none⟩⟩,
   ⟨6, "gasleft", ⟨113, .fn [] [72] [] [] .GasLeft .View false false false false none⟩⟩,
   ⟨7, "keccak256", ⟨114, .fn [3] [104] [] [] .KECCAK256 .Pure false false false false none⟩⟩,
   ⟨8, "log0", ⟨115, .fn [104] [] [] [] .Log0 .NonPayable false false false false none⟩⟩,
   ⟨9, "log1", ⟨116, .fn [104, 104] [] [] [] .Log1 .NonPayable false false false false none⟩⟩,
   ⟨10, "log2", ⟨117, .fn [104, 104, 104] [] [] [] .Log2 .NonPayable false false false false none⟩⟩,
   ⟨11, "log3", ⟨118, .fn [104, 104, 104, 104] [] [] [] .Log3 .NonPayable false false false false none⟩⟩,
   ⟨12, "log4", ⟨119, .fn [104, 104, 104, 104, 104] [] [] [] .Log4 .NonPayable false false false false none⟩⟩,
   ⟨13, "msg", ⟨106, .magic .Message⟩⟩,
   ⟨14, "mulmod", ⟨120, .fn [72, 72, 72] [72] [] [] .MulMod .Pure false false false false none⟩⟩,
   ⟨15, "now", ⟨72, .integer 256 .Unsigned⟩⟩,
   ⟨16, "require", ⟨121, .fn [0] [] [] [] .Require .Pure false false false false none⟩⟩,
   ⟨17, "require", ⟨122, .fn [0, 5] [] [] [] .Require .Pure false false false false none⟩⟩,
   ⟨18, "revert", ⟨123, .fn [] [] [] [] .Revert .Pure false false false false none⟩⟩,
   ⟨19, "revert", ⟨124, .fn [5] [] [] [] .Revert .Pure false false false false none⟩⟩,
   ⟨20, "ripemd160", ⟨125, .fn [3] [92] [] [] .RIPEMD160 .Pure false false false false none⟩⟩,
   ⟨21, "selfdestruct", ⟨126, .fn [7] [] [] [] .Selfdestruct .NonPayable false false false false none⟩⟩,
   ⟨22, "sha256", ⟨127, .fn [3] [104] [] [] .SHA256 .Pure false false false false none⟩⟩,
   ⟨23, "sha3", ⟨114, .fn [3] [104] [] [] .KECCAK256 .Pure false false false false none⟩⟩,
   ⟨24, "suicide", ⟨126, .fn [7] [] [] [] .Selfdestruct .NonPayable false false false false none⟩⟩,
   ⟨25, "tx", ⟨107, .magic .Transaction⟩⟩,
   ⟨26, "type", ⟨128, .fn [8] [] [] [] .MetaType .Pure false false false false none⟩⟩]

/-- Checks the alias structure on a declaration list: positions 7/23 are
`keccak256`/`sha3` and 21/24 are `selfdestruct`/`suicide`; each pair consists
of two distinct declarations bound to one and the same type handle. -/
def aliasCheck (l : List MagicVariableDeclaration) : Bool :=
  match l.get? 7, l.get? 23, l.get? 21, l.get? 24 with
  | some k, some s3, some sd, some su =>
      k.name = "keccak256" ∧ s3.name = "sha3" ∧ k.id ≠ s3.id ∧ k.ty = s3.ty ∧
      sd.name = "selfdestruct" ∧ su.name = "suicide" ∧ sd.id ≠ su.id ∧ sd.ty = su.ty
  | _, _, _, _ => false

/-- A `GlobalContext` that has not yet memoized any contextual declaration
(fresh provider, no built-ins needed for the contextual-declaration laws). -/
def gFresh : GlobalContext := ⟨initialState, [], 0, none, [], []⟩

/-- Concrete `this`-pointer run of the reset scenario: build the real
`GlobalContext`, select contract `5`, take `currentThis`, then call
`TypeProvider::reset()` and repeat; result is the pair of declaration
identities observed before and after the reset. -/
def c6Run : Option (Nat × Nat) :=
  match mkGlobalContext initialState with
  | .error _ => none
  | .ok g =>
    match currentThis (setCurrentContract 5 g) with
    | none => none
    | some (g₁, d) =>
      match currentThis (setCurrentContract 5 (resetProvider g₁)) with
      | none => none
      | some (_, d₂) => some (d.id, d₂.id)


/-! ## Interner lemmas -/

/-- Atomic descriptors are returned from the static storage without touching
the mutable state. -/
theorem intern_atom {t : Ty} {i : Nat} (h : atomId? t = some i) (s : InternerState) :
    intern t s = (s, ⟨i, t⟩) := by
  simp [intern, h]

/-- A state that just allocated is distinguishable from the starting state by
its allocation counter. -/
theorem intern_alloc_ne {t : Ty} {s : InternerState} :
    (⟨(t, s.nextId) :: s.cache, s.nextId + 1⟩ : InternerState) ≠ s := by
  intro he
  have := congrArg InternerState.nextId he
  simp at this

/-- Interning never decreases the allocation counter. -/
theorem intern_nextId_le (t : Ty) (s : InternerState) :
    s.nextId ≤ (intern t s).1.nextId := by
  cases ha : atomId? t with
  | some i => simp [intern, ha]
  | none =>
    cases hb : findId s.cache t with
    | some i => simp [intern, ha, hb]
    | none => simp [intern, ha, hb]

/-- If interning did not advance the allocation counter, it did not change the
state at all. -/
theorem intern_state_eq {t : Ty} {s : InternerState}
    (h : (intern t s).1.nextId ≤ s.nextId) : (intern t s).1 = s := by
  cases ha : atomId? t with
  | some i => simp [intern, ha]
  | none =>
    cases hb : findId s.cache t with
    | some i => simp [intern, ha, hb]
    | none =>
      exfalso
      simp only [intern, ha, hb] at h
      omega

/-- A cache hit is a stateless lookup. -/
theorem intern_cached {t : Ty} {i : Nat} {S : InternerState}
    (ha : atomId? t = none) (hf : findId S.cache t = some i) :
    intern t S = (S, ⟨i, t⟩) := by
  simp [intern, ha, hf]

/-- A cache entry survives any later interning. -/
theorem findId_intern {t : Ty} {i : Nat} {s : InternerState}
    (hf : findId s.cache t = some i) (u : Ty) :
    findId ((intern u s).1).cache t = some i := by
  unfold intern
  cases atomId? u with
  | some j => simpa using hf
  | none =>
    cases hb : findId s.cache u with
    | some j => simpa using hf
    | none =>
      have hut : u ≠ t := by
        intro he
        rw [he, hf] at hb
        cases hb
      simpa [findId, hut] using hf

/-- Within one thread, interning the same descriptor again returns the same
handle and leaves the state unchanged. -/
theorem intern_idem (t : Ty) (s : InternerState) :
    intern t (intern t s).1 = intern t s := by
  cases ha : atomId? t with
  | some i => simp [intern, ha]
  | none =>
    cases hb : findId s.cache t with
    | some i => simp [intern, ha, hb]
    | none => simp [intern, ha, hb, findId]

/-- A descriptor whose interning is a stateless lookup stays a stateless
lookup returning the same handle after any other interning. -/
theorem intern_keep {t : Ty} {h : TypeHandle} {s : InternerState}
    (he : intern t s = (s, h)) (u : Ty) :
    intern t (intern u s).1 = ((intern u s).1, h) := by
  cases ha : atomId? t with
  | some i =>
    rw [intern_atom ha] at he
    simp only [Prod.mk.injEq, true_and] at he
    rw [← he]
    exact intern_atom ha _
  | none =>
    cases hb : findId s.cache t with
    | some i =>
      have hi := findId_intern hb u
      rw [intern_cached ha hb] at he
      simp only [Prod.mk.injEq, true_and] at he
      rw [← he]
      exact intern_cached ha hi
    | none =>
      exfalso
      simp only [intern, ha, hb] at he
      exact intern_alloc_ne (congrArg Prod.fst he)

/-- `intern_keep`, iterated over a whole list of later internings. -/
theorem intern_keep_many {t : Ty} {h : TypeHandle} {s : InternerState}
    (he : intern t s = (s, h)) (us : List Ty) :
    intern t (internMany us s).1 = ((internMany us s).1, h) := by
  induction us generalizing s with
  | nil => simpa [internMany] using he
  | cons u rest ih =>
    have h1 := intern_keep he u
    have h2 := ih h1
    simpa [internMany] using h2

/-- `internMany` never decreases the allocation counter. -/
theorem internMany_nextId_le (ts : List Ty) (s : InternerState) :
    s.nextId ≤ (internMany ts s).1.nextId := by
  induction ts generalizing s with
  | nil => simp [internMany]
  | cons t rest ih =>
    calc s.nextId ≤ (intern t s).1.nextId := intern_nextId_le t s
    _ ≤ (internMany rest (intern t s).1).1.nextId := ih _
    _ = (internMany (t :: rest) s).1.nextId := by simp [internMany]

/-- Re-running `internMany` on the same descriptors is a stateless replay
returning the same handles. -/
theorem internMany_idem (ts : List Ty) (s : InternerState) :
    internMany ts (internMany ts s).1 =
      ((internMany ts s).1, (internMany ts s).2) := by
  induction ts generalizing s with
  | nil => simp [internMany]
  | cons t rest ih =>
    have h1 : intern t (intern t s).1 = ((intern t s).1, (intern t s).2) := by
      rw [intern_idem]
    have h2 := intern_keep_many h1 rest
    have h3 := ih ((intern t s).1)
    simp only [internMany] at h2 h3 ⊢
    rw [h2, h3]

/-- A stateless `internMany` replay stays a stateless replay after any later
interning. -/
theorem internMany_keep {ts : List Ty} {hs : List TypeHandle} {s : InternerState}
    (he : internMany ts s = (s, hs)) (u : Ty) :
    internMany ts (intern u s).1 = ((intern u s).1, hs) := by
  induction ts generalizing s hs with
  | nil =>
    simp only [internMany, Prod.mk.injEq, true_and] at he
    simp [internMany, ← he]
  | cons t rest ih =>
    simp only [internMany, Prod.mk.injEq] at he
    obtain ⟨hst, hls⟩ := he
    have hs1 : (intern t s).1 = s := by
      apply intern_state_eq
      calc (intern t s).1.nextId
          ≤ (internMany rest (intern t s).1).1.nextId := internMany_nextId_le _ _
        _ = s.nextId := by rw [hst]
    have hT : intern t s = (s, (intern t s).2) := Prod.ext hs1 rfl
    rw [hs1] at hst hls
    have hR : internMany rest s = (s, (internMany rest s).2) := Prod.ext hst rfl
    have g1 := intern_keep hT u
    have g2 := ih hR
    simp only [internMany, g1, g2, ← hls]

/-- `internMany_keep`, iterated over a whole list of later internings. -/
theorem internMany_keep_many {ts : List Ty} {hs : List TypeHandle}
    {s : InternerState} (he : internMany ts s = (s, hs)) (us : List Ty) :
    internMany ts (internMany us s).1 = ((internMany us s).1, hs) := by
  induction us generalizing s with
  | nil => simpa [internMany] using he
  | cons u rest ih =>
    have h1 := internMany_keep he u
    have h2 := ih h1
    simpa [internMany] using h2


/-- Re-running `fromElementaryTypeName` with the same name on the resulting
state returns the same handle and state. -/
theorem fromElementaryTypeName_idem {name : String} {s : InternerState}
    {r : InternerState × TypeHandle}
    (he : fromElementaryTypeName name s = .ok r) :
    fromElementaryTypeName name r.1 = .ok r := by
  cases hd : elementaryDescriptor (locSplit name.data).1 (locSplit name.data).2 with
  | error e => simp [fromElementaryTypeName, hd] at he
  | ok d =>
    simp only [fromElementaryTypeName, hd, Except.ok.injEq] at he ⊢
    rw [← he]
    exact intern_idem d s

/-- Re-running the `strings` overload of `functionType` with the same
arguments on the resulting state returns the same handle and state. -/
theorem functionTypeS_idem {ps rs : List String} {k : FunctionKind} {a : Bool}
    {m : StateMutability} {s : InternerState} {r : InternerState × TypeHandle}
    (he : functionTypeS ps rs k a m s = .ok r) :
    functionTypeS ps rs k a m r.1 = .ok r := by
  cases hp : elementaryDescriptors ps with
  | error e => simp [functionTypeS, hp] at he
  | ok pds =>
    cases hq : elementaryDescriptors rs with
    | error e => simp [functionTypeS, hp, hq] at he
    | ok rds =>
      simp only [functionTypeS, hp, hq, Except.ok.injEq] at he ⊢
      have e1 : internMany pds (internMany pds s).1 =
          ((internMany pds s).1, (internMany pds s).2) := internMany_idem pds s
      have e2 := internMany_keep_many e1 rds
      have e3 := internMany_keep e2
        (.fn ((internMany pds s).2.map TypeHandle.id)
          ((internMany rds (internMany pds s).1).2.map TypeHandle.id) [] []
          k m false false false a none)
      rw [he] at e3
      have f1 : internMany rds (internMany rds (internMany pds s).1).1 =
          ((internMany rds (internMany pds s).1).1,
           (internMany rds (internMany pds s).1).2) :=
        internMany_idem rds (internMany pds s).1
      have f2 := internMany_keep f1
        (.fn ((internMany pds s).2.map TypeHandle.id)
          ((internMany rds (internMany pds s).1).2.map TypeHandle.id) [] []
          k m false false false a none)
      rw [he] at f2
      have g1 := intern_idem
        (.fn ((internMany pds s).2.map TypeHandle.id)
          ((internMany rds (internMany pds s).1).2.map TypeHandle.id) [] []
          k m false false false a none)
        (internMany rds (internMany pds s).1).1
      rw [he] at g1
      simp only [e3, f2, g1]


/-! ## Well-formedness of interner states -/

/-- A fresh provider state is well-formed. -/
theorem WF_initial : WF initialState := by decide

/-- A hit in a well-formed cache yields an identity in the allocated range. -/
theorem findId_mem {c : List (Ty × Nat)} {t : Ty} {i : Nat}
    (hf : findId c t = some i) : (t, i) ∈ c := by
  induction c with
  | nil => cases hf
  | cons p rest ih =>
    obtain ⟨u, j⟩ := p
    by_cases hut : u = t
    · subst hut
      simp [findId] at hf
      simp [hf]
    · simp [findId, hut] at hf
      simp [ih hf]

/-- In a well-formed state, cached identities lie strictly below the
allocation counter. -/
theorem findId_lt {s : InternerState} (hWF : WF s) {t : Ty} {i : Nat}
    (hf : findId s.cache t = some i) : 109 ≤ i ∧ i < s.nextId :=
  hWF.1 (t, i) (findId_mem hf)

/-- Interning preserves well-formedness. -/
theorem WF_intern {s : InternerState} (hWF : WF s) (t : Ty) :
    WF (intern t s).1 := by
  obtain ⟨h1, h2⟩ := hWF
  cases ha : atomId? t with
  | some i => simpa [intern, ha] using ⟨h1, h2⟩
  | none =>
    cases hb : findId s.cache t with
    | some i => simpa [intern, ha, hb] using ⟨h1, h2⟩
    | none =>
      simp only [intern, ha, hb]
      refine ⟨?_, Nat.le_succ_of_le h2⟩
      intro p hp
      rcases List.mem_cons.mp hp with hp | hp
      · subst hp
        exact ⟨h2, Nat.lt_succ_self _⟩
      · have hpl := h1 p hp
        exact ⟨hpl.1, Nat.lt_succ_of_lt hpl.2⟩

/-- The handle produced by interning in a well-formed state has its identity
below the resulting allocation counter, except for atoms. -/
theorem intern_id_lt {s : InternerState} (hWF : WF s) {t : Ty}
    (ha : atomId? t = none) :
    ((intern t s).2).id < ((intern t s).1).nextId := by
  cases hb : findId s.cache t with
  | some i =>
    simp only [intern, ha, hb]
    exact (findId_lt hWF hb).2
  | none => simp [intern, ha, hb]


/-! ## Claim theorems -/

/-- C1: for every factory method `f` of the type interner and every
well-formed argument tuple, two calls `f(args)` then `f(args)` return the same
handle (pointer equality) and leave the provider state unchanged by the second
call: this holds for the core `intern` operation (hence for every cached
factory and, with equivalent descriptors modelled as equal descriptor values,
for `intern(x)` followed by `intern(y)` with `x ≡ y`), for `withLocation`, for
`fromElementaryTypeName`, and for the `strings` overload of `functionType`.
The header's atom factories (`integerType`, `fixedBytesType`, `magicType`,
...) are stateless pure functions, for which idempotence is definitional. -/
theorem C1_factory_idempotence :
    (∀ (t : Ty) (s : InternerState), intern t (intern t s).1 = intern t s) ∧
    (∀ (t : TypeHandle) (loc : DataLocation) (p : Bool) (s : InternerState),
      withLocation t loc p (withLocation t loc p s).1 = withLocation t loc p s) ∧
    (∀ (name : String) (s : InternerState) (r : InternerState × TypeHandle),
      fromElementaryTypeName name s = .ok r →
      fromElementaryTypeName name r.1 = .ok r) ∧
    (∀ (ps rs : List String) (k : FunctionKind) (a : Bool)
       (m : StateMutability) (s : InternerState) (r : InternerState × TypeHandle),
      functionTypeS ps rs k a m s = .ok r →
      functionTypeS ps rs k a m r.1 = .ok r) := by
  refine ⟨intern_idem, ?_, ?_, ?_⟩
  · intro t loc p s
    exact intern_idem (relocate t.ty loc p) s
  · intro name s r he
    exact fromElementaryTypeName_idem he
  · intro ps rs k a m s r he
    exact functionTypeS_idem he

/-- C1 witness: the idempotence law applied at concrete inputs —
`fromElementaryTypeName("uint")` and
`functionType({"bool"}, {}, Assert, false, Pure)` on a fresh provider,
re-run on the state their first call produced. -/
theorem C1_witness :
    fromElementaryTypeName "uint"
        ((initialState, (⟨72, .integer 256 .Unsigned⟩ : TypeHandle))).1 =
      .ok (initialState, ⟨72, .integer 256 .Unsigned⟩) ∧
    functionTypeS ["bool"] [] .Assert false .Pure
        (((⟨[(.fn [0] [] [] [] .Assert .Pure false false false false none, 109)],
            110⟩ : InternerState),
          (⟨109, .fn [0] [] [] [] .Assert .Pure false false false false none⟩ :
            TypeHandle))).1 =
      .ok (⟨[(.fn [0] [] [] [] .Assert .Pure false false false false none, 109)],
            110⟩,
           ⟨109, .fn [0] [] [] [] .Assert .Pure false false false false none⟩) := by
  constructor
  · exact C1_factory_idempotence.2.2.1 "uint" initialState
      (initialState, ⟨72, .integer 256 .Unsigned⟩) (by decide)
  · exact C1_factory_idempotence.2.2.2 ["bool"] [] .Assert false .Pure
      initialState
      (⟨[(.fn [0] [] [] [] .Assert .Pure false false false false none, 109)],
         110⟩,
       ⟨109, .fn [0] [] [] [] .Assert .Pure false false false false none⟩)
      (by decide)


/-- C2 counterexample: the claim fixes the published order to the §4.2 table
order (`abi, block, msg, tx, now, addmod, ...`), but the constructed list is
not in that order — `constructMagicVariables` builds the rows alphabetically,
so position 1 holds `addmod`, not `block`. -/
theorem C2_counterexample : builtinNames? ≠ some tableOrderNames := by decide

/-- C2 (amended): `GlobalContext.declarations()` contains exactly the rows of
the §4.2 built-ins table, including the duplicate `require`/`revert`
overloads with their §4.2 types, but the construction order is alphabetical
(`abi, addmod, assert, block, blockhash, ecrecover, gasleft, keccak256,
log0..log4, msg, mulmod, now, require, require, revert, revert, ripemd160,
selfdestruct, sha256, sha3, suicide, tx, type`), not the table's listed
order: the full published list equals `expectedBuiltins`, and its names are a
permutation of the table's rows. -/
theorem C2_builtins : builtins? = some expectedBuiltins ∧
    (expectedBuiltins.map MagicVariableDeclaration.name).Perm tableOrderNames := by
  refine ⟨by decide, by decide⟩

/-- C3 counterexample: out-of-range numeric parameters are not rejected with
a structured error returned to the caller: `fixedBytesType(33)` fails with the
`std::out_of_range` exception of the static-array bounds check, not with
`BadFixedBytesLength(33)`, and `integerType(12)` trips the `solAssert`
assertion (an abort-style internal error), so the interner does abort on a
non-multiple-of-8 width. -/
theorem C3_counterexample :
    fixedBytesType 33 = .error .outOfRange ∧
    fixedBytesType 33 ≠ .error (.structured (.BadFixedBytesLength 33)) ∧
    integerType 12 .Unsigned = .error .assertionFailure := by
  refine ⟨by decide, by decide, by decide⟩

/-- In-range widths hit the static integer atom. -/
theorem integerType_ok {bits : Nat} (hb : bits < UWRAP) (h8 : bits % 8 = 0)
    (hlo : 8 ≤ bits) (hhi : bits ≤ 256) (m : IntModifier) :
    integerType bits m =
      .ok ⟨(if m = .Signed then intId else uintId) bits, .integer bits m⟩ := by
  have hUW : UWRAP = 4294967296 := rfl
  rw [hUW] at hb
  have hbe : bits % UWRAP = bits := by rw [hUW]; omega
  have hidx : (bits / 8 + (UWRAP - 1)) % UWRAP = bits / 8 - 1 := by
    rw [hUW]; omega
  have h32 : bits / 8 - 1 < 32 := by omega
  have hbits : 8 * (bits / 8 - 1 + 1) = bits := by omega
  simp [integerType, hbe, h8, hidx, h32, hbits]

/-- Widths that are not a multiple of 8 trip the `solAssert`. -/
theorem integerType_assert {bits : Nat} (hb : bits < UWRAP)
    (h8 : bits % 8 ≠ 0) (m : IntModifier) :
    integerType bits m = .error .assertionFailure := by
  have hbe : bits % UWRAP = bits := Nat.mod_eq_of_lt hb
  simp [integerType, hbe, h8]

/-- Multiples of 8 outside `[8, 256]` fall out of the static array bounds. -/
theorem integerType_range {bits : Nat} (hb : bits < UWRAP) (h8 : bits % 8 = 0)
    (hr : ¬(8 ≤ bits ∧ bits ≤ 256)) (m : IntModifier) :
    integerType bits m = .error .outOfRange := by
  have hUW : UWRAP = 4294967296 := rfl
  rw [hUW] at hb
  have hbe : bits % UWRAP = bits := by rw [hUW]; omega
  have hidx : ¬((bits / 8 + (UWRAP - 1)) % UWRAP < 32) := by
    rw [hUW]; omega
  simp [integerType, hbe, h8, hidx]

/-- In-range lengths hit the static fixed-bytes atom. -/
theorem fixedBytesType_ok {n : Nat} (hlo : 1 ≤ n) (hhi : n ≤ 32) :
    fixedBytesType n = .ok ⟨fixedBytesId n, .fixedBytes n⟩ := by
  have hUW : UWRAP = 4294967296 := rfl
  have hne : n % UWRAP = n := by rw [hUW]; omega
  have hidx : (n % UWRAP + (UWRAP - 1)) % UWRAP = n - 1 := by
    rw [hUW]; omega
  have h32 : n - 1 < 32 := by omega
  have hn1 : n - 1 + 1 = n := by omega
  simp [fixedBytesType, hidx, h32, hn1]

/-- Lengths outside `[1, 32]` fall out of the static array bounds. -/
theorem fixedBytesType_range {n : Nat} (hn : n < UWRAP)
    (hr : ¬(1 ≤ n ∧ n ≤ 32)) :
    fixedBytesType n = .error .outOfRange := by
  have hUW : UWRAP = 4294967296 := rfl
  rw [hUW] at hn
  have hidx : ¬((n % UWRAP + (UWRAP - 1)) % UWRAP < 32) := by
    rw [hUW]; omega
  have hidx2 : ¬((n + (UWRAP - 1)) % UWRAP < 32) := by
    rw [hUW]; omega
  simp [fixedBytesType, hidx, hidx2]

/-- C3 (amended): `integerType(bits, signed?)` accepts exactly the bit-widths
in `8·{1..32}` and `fixedBytesType(m)` accepts exactly `1 ≤ m ≤ 32`, and the
stateless factories never partially succeed; but rejection is by `solAssert`
failure (width not a multiple of 8) or by the `std::out_of_range` bounds
exception of `std::array::at` (including `fixedBytesType(33)`), not by a
structured error value returned to the caller. -/
theorem C3_domain (bits n : Nat) (m : IntModifier)
    (hb : bits < UWRAP) (hn : n < UWRAP) :
    ((∃ h, integerType bits m = .ok h) ↔ bits % 8 = 0 ∧ 8 ≤ bits ∧ bits ≤ 256) ∧
    ((∃ h, fixedBytesType n = .ok h) ↔ 1 ≤ n ∧ n ≤ 32) ∧
    (bits % 8 ≠ 0 → integerType bits m = .error .assertionFailure) ∧
    (bits % 8 = 0 → ¬(8 ≤ bits ∧ bits ≤ 256) →
      integerType bits m = .error .outOfRange) ∧
    (¬(1 ≤ n ∧ n ≤ 32) → fixedBytesType n = .error .outOfRange) := by
  refine ⟨⟨?_, ?_⟩, ⟨?_, ?_⟩, ?_, ?_, ?_⟩
  · rintro ⟨h, hh⟩
    by_cases h8 : bits % 8 = 0
    · by_cases hr : 8 ≤ bits ∧ bits ≤ 256
      · exact ⟨h8, hr.1, hr.2⟩
      · rw [integerType_range hb h8 hr m] at hh
        simp at hh
    · rw [integerType_assert hb h8 m] at hh
      simp at hh
  · rintro ⟨h8, hlo, hhi⟩
    exact ⟨_, integerType_ok hb h8 hlo hhi m⟩
  · rintro ⟨h, hh⟩
    by_cases hr : 1 ≤ n ∧ n ≤ 32
    · exact hr
    · rw [fixedBytesType_range hn hr] at hh
      simp at hh
  · rintro ⟨hlo, hhi⟩
    exact ⟨_, fixedBytesType_ok hlo hhi⟩
  · intro h8
    exact integerType_assert hb h8 m
  · intro h8 hr
    exact integerType_range hb h8 hr m
  · intro hr
    exact fixedBytesType_range hn hr

/-- C3 witness: the domain characterization applied at `bits = 16` and
`n = 33`. -/
theorem C3_witness :
    ((∃ h, integerType 16 .Unsigned = .ok h) ↔ 16 % 8 = 0 ∧ 8 ≤ 16 ∧ 16 ≤ 256) ∧
    ((∃ h, fixedBytesType 33 = .ok h) ↔ 1 ≤ 33 ∧ 33 ≤ 32) ∧
    (16 % 8 ≠ 0 → integerType 16 .Unsigned = .error .assertionFailure) ∧
    (16 % 8 = 0 → ¬(8 ≤ 16 ∧ 16 ≤ 256) →
      integerType 16 .Unsigned = .error .outOfRange) ∧
    (¬(1 ≤ 33 ∧ 33 ≤ 32) → fixedBytesType 33 = .error .outOfRange) :=
  C3_domain 16 33 .Unsigned (by decide) (by decide)

/-- C5: before any factory method runs, all atoms already exist: the
enumeration `allAtoms` lists the 32 signed integers, 32 unsigned integers,
32 fixed-bytes widths, the two address variants, `bool`, the four magic
namespaces, the empty tuple, the canonical `bytes`/`string` storage and
memory arrays, and the inaccessible-dynamic marker — 109 distinct
identities — and requesting any of them through `intern` returns the
pre-populated handle in every provider state without touching the mutable
caches (process lifetime: no factory call or sequence of calls can displace
them). -/
theorem C5_atoms_prepopulated :
    allAtoms.length = 109 ∧
    (allAtoms.map TypeHandle.id).Nodup ∧
    (∀ h ∈ allAtoms, ∀ s : InternerState, intern h.ty s = (s, h)) := by
  refine ⟨by decide, by decide, ?_⟩
  have hall : ∀ x ∈ allAtoms, atomId? x.ty = some x.id := by decide
  intro h hmem s
  exact intern_atom (hall h hmem) s

/-- C5 witness: the pre-population law applied to the `bool` atom on a fresh
provider state. -/
theorem C5_witness : intern boolType.ty initialState = (initialState, boolType) :=
  C5_atoms_prepopulated.2.2 boolType (by decide) initialState

/-- C7: in the published declaration list, `keccak256` (position 7) and
`sha3` (position 23) are distinct declarations bound to one and the same
interned function type handle, and likewise `selfdestruct` (position 21) and
`suicide` (position 24); the declarations are not coalesced. -/
theorem C7_alias_declarations : builtins?.map aliasCheck = some true := by decide


/-- C4: after `reset()`, every atom (bool, the two address variants, all
integer, fixed-bytes, magic-namespace, empty-tuple, canonical `bytes`/`string`
and inaccessible-dynamic descriptors — everything `atomId?` recognizes)
compares equal to its pre-reset identity, while re-interning any non-atom
descriptor that had been interned before the reset yields a freshly allocated
handle whose identity differs from the pre-reset handle's. -/
theorem C4_reset_semantics (s : InternerState) (hWF : WF s) :
    (∀ (t : Ty) (i : Nat), atomId? t = some i →
        intern t (reset s) = (reset s, ⟨i, t⟩) ∧ intern t s = (s, ⟨i, t⟩)) ∧
    (∀ t : Ty, atomId? t = none →
        ((intern t (reset (intern t s).1)).2).id ≠ ((intern t s).2).id) := by
  constructor
  · intro t i h
    exact ⟨intern_atom h _, intern_atom h s⟩
  · intro t ha
    have hlt : ((intern t s).2).id < ((intern t s).1).nextId :=
      intern_id_lt hWF ha
    have h2 : intern t (reset (intern t s).1) =
        (⟨[(t, ((intern t s).1).nextId)], ((intern t s).1).nextId + 1⟩,
         ⟨((intern t s).1).nextId, t⟩) := by
      simp [intern, ha, reset, findId]
    rw [h2]
    simp only []
    omega

/-- C4 witness: the reset law applied on a fresh (well-formed) provider
state, with the `bool` atom and the non-atom descriptor `mapping(0, 0)`. -/
theorem C4_witness :
    (intern .bool (reset initialState) = (reset initialState, ⟨0, .bool⟩) ∧
     intern .bool initialState = (initialState, ⟨0, .bool⟩)) ∧
    ((intern (.mapping 0 0) (reset (intern (.mapping 0 0) initialState).1)).2).id ≠
      ((intern (.mapping 0 0) initialState).2).id := by
  constructor
  · exact (C4_reset_semantics initialState (by decide)).1 .bool 0 (by decide)
  · exact (C4_reset_semantics initialState (by decide)).2 (.mapping 0 0) (by decide)

/-- C6 counterexample: the claim's last clause says that after `reset()`
followed by `setCurrentContract(C)`, `currentThis()` returns a fresh pointer;
but `TypeProvider::reset` does not touch `GlobalContext::m_thisPointer`, so
the concrete run `c6Run` observes the same declaration identity (27) before
and after the reset — the memoized pointer, not a fresh one. -/
theorem C6_counterexample : ¬ (∀ a b : Nat, c6Run = some (a, b) → a ≠ b) := by
  intro hcl
  exact hcl 27 27 (by decide) rfl

/-- C6 (amended): after `setCurrentContract(C)` (with no memo entry for `C`
yet), two calls to `currentThis()` return the same pointer to a declaration
named `"this"` typed `contractType(C, isSuper := false)` (the first call
allocates, the second returns the memoized pointer), and `currentSuper()`
analogously returns a declaration named `"super"` typed
`contractType(C, isSuper := true)`; but after `reset()` followed by
`setCurrentContract(C)`, `currentThis()` returns the same memoized pre-reset
pointer, not a fresh one, because `TypeProvider::reset` does not clear the
`GlobalContext` memo maps. -/
theorem C6_contextual_declarations (g : GlobalContext) (c : Nat)
    (hThis : lookupMemo g.thisPointer (some c) = none)
    (hSuper : lookupMemo g.superPointer (some c) = none) :
    ∃ g₁ d g₂ e,
      currentThis (setCurrentContract c g) = some (g₁, d) ∧
      currentThis g₁ = some (g₁, d) ∧
      d.name = "this" ∧
      d.ty = (intern (.contract c false) g.interner).2 ∧
      currentSuper g₁ = some (g₂, e) ∧
      currentSuper g₂ = some (g₂, e) ∧
      e.name = "super" ∧
      e.ty = (intern (.contract c true) g₁.interner).2 ∧
      (∀ g₃ d₃,
        currentThis (setCurrentContract c (resetProvider g₁)) = some (g₃, d₃) →
        d₃ = d) := by
  refine ⟨⟨(intern (.contract c false) g.interner).1, g.magicVariables,
           g.declNext + 1, some c,
           (some c, ⟨g.declNext, "this",
             (intern (.contract c false) g.interner).2⟩) :: g.thisPointer,
           g.superPointer⟩,
          ⟨g.declNext, "this", (intern (.contract c false) g.interner).2⟩,
          ⟨(intern (.contract c true)
              (intern (.contract c false) g.interner).1).1,
           g.magicVariables, g.declNext + 1 + 1, some c,
           (some c, ⟨g.declNext, "this",
             (intern (.contract c false) g.interner).2⟩) :: g.thisPointer,
           (some c, ⟨g.declNext + 1, "super",
             (intern (.contract c true)
               (intern (.contract c false) g.interner).1).2⟩) ::
             g.superPointer⟩,
          ⟨g.declNext + 1, "super",
           (intern (.contract c true)
             (intern (.contract c false) g.interner).1).2⟩,
          ?_, ?_, rfl, rfl, ?_, ?_, rfl, rfl, ?_⟩
  · simp [currentThis, setCurrentContract, hThis]
  · simp [currentThis, lookupMemo]
  · simp [currentSuper, hSuper, lookupMemo]
  · simp [currentSuper, lookupMemo]
  · intro g₃ d₃ h
    simp [currentThis, setCurrentContract, resetProvider, lookupMemo] at h
    exact h.2.symm

/-- C6 witness: the contextual-declaration law applied to a memo-free
`GlobalContext` (`gFresh`) and contract `5`. -/
theorem C6_witness :
    ∃ g₁ d g₂ e,
      currentThis (setCurrentContract 5 gFresh) = some (g₁, d) ∧
      currentThis g₁ = some (g₁, d) ∧
      d.name = "this" ∧
      d.ty = (intern (.contract 5 false) gFresh.interner).2 ∧
      currentSuper g₁ = some (g₂, e) ∧
      currentSuper g₂ = some (g₂, e) ∧
      e.name = "super" ∧
      e.ty = (intern (.contract 5 true) g₁.interner).2 ∧
      (∀ g₃ d₃,
        currentThis (setCurrentContract 5 (resetProvider g₁)) = some (g₃, d₃) →
        d₃ = d) :=
  C6_contextual_declarations gFresh 5 (by decide) (by decide)

/-- C8: applying `withLocation` in its if-reference form to a non-reference
type returns the input handle unchanged (identity) for every data location
and pointer flag (the source instantiates the flag with `false`); only
array/struct/string-literal reference types are re-interned at the new
location. -/
theorem C8_withLocation_identity :
    ∀ (loc : DataLocation) (p : Bool) (t : TypeHandle) (s : InternerState),
      (isReferenceTy t.ty = false →
        withLocationIfReferenceP loc p t s = (s, t) ∧
        withLocationIfReference loc t s = (s, t)) ∧
      (isReferenceTy t.ty = true →
        withLocationIfReferenceP loc p t s = withLocation t loc p s) := by
  intro loc p t s
  constructor
  · intro h
    constructor
    · simp [withLocationIfReferenceP, h]
    · simp [withLocationIfReference, withLocationIfReferenceP, h]
  · intro h
    simp [withLocationIfReferenceP, h]

/-- C8 witness: the identity law applied to the non-reference `bool` atom at
memory location with the pointer flag set. -/
theorem C8_witness :
    withLocationIfReferenceP .Memory true boolType initialState =
      (initialState, boolType) ∧
    withLocationIfReference .Memory boolType initialState =
      (initialState, boolType) :=
  (C8_withLocation_identity .Memory true boolType initialState).1 (by decide)

/-- C9: `fromElementaryTypeName("uint")` returns the same handle as the typed
factory call `integerType(256, Unsigned)`, which is also the handle returned
by `fromElementaryTypeName("uint256")` — the missing digit suffix defaults to
width 256 — in every provider state, without touching the state. -/
theorem C9_uint_default :
    ∀ s : InternerState,
      fromElementaryTypeName "uint" s =
        .ok (s, ⟨uintId 256, .integer 256 .Unsigned⟩) ∧
      fromElementaryTypeName "uint256" s =
        .ok (s, ⟨uintId 256, .integer 256 .Unsigned⟩) ∧
      integerType 256 .Unsigned = .ok ⟨uintId 256, .integer 256 .Unsigned⟩ := by
  intro s
  have hd1 : elementaryDescriptor (locSplit "uint".data).1
      (locSplit "uint".data).2 = .ok (.integer 256 .Unsigned) := by decide
  have hd2 : elementaryDescriptor (locSplit "uint256".data).1
      (locSplit "uint256".data).2 = .ok (.integer 256 .Unsigned) := by decide
  have hi : atomId? (.integer 256 .Unsigned) = some (uintId 256) := by decide
  refine ⟨?_, ?_, by decide⟩
  · simp [fromElementaryTypeName, hd1, intern_atom hi]
  · simp [fromElementaryTypeName, hd2, intern_atom hi]

/-- C10: the two `GlobalContext` implementations in the source — the one at
`src/libsolidity/analysis/GlobalContext.cpp` calling static `TypeProvider`
methods and the one at `src/unnamed/part_000` calling methods on the
`TypeProvider::get()` instance — are equivalent: on every provider state they
construct identical declaration lists (same length, same names in the same
order, same bound type handle at each position), and their
`setCurrentContract` / `declarations` / `currentThis` / `currentSuper`
behaviours coincide. -/
theorem C10_implementations_equivalent :
    (∀ s, constructMagicVariablesGet s = constructMagicVariables s) ∧
    (∀ g, declarationsGet g = declarations g) ∧
    (∀ c g, setCurrentContractGet c g = setCurrentContract c g) ∧
    (∀ g, currentThisGet g = currentThis g) ∧
    (∀ g, currentSuperGet g = currentSuper g) :=
  ⟨fun _ => rfl, fun _ => rfl, fun _ _ => rfl, fun _ => rfl, fun _ => rfl⟩

end Solidity
